import Mathlib

/-!
Verification of the churn/engagement classification pipeline of
`streamlit_app.py` (tab5, the user-churn prediction model), via a shallow
embedding of its data model and operations.

Conventions of the embedding:
* pandas cells are modelled by `Val` (a rational number, a string, or the
  missing value NaN modelled as `Val.null`);
* a dataframe row of the loaded dataset is a `Record` whose modeling fields
  are `Option`-valued (`none` = NaN);
* `EngagementLevel` is the pandas Categorical with the three fixed
  categories Low, Medium, High (values outside the list become NaN, hence
  the `Option`).
-/

/-- The three categories of the `EngagementLevel` pandas Categorical
(`engagement_order = [Low, Medium, High]` in `load_data`). -/
inductive EngLevel where
  | low
  | medium
  | high
deriving DecidableEq, Repr

/-- The Python string of each engagement category, as stored in the column. -/
def engString : EngLevel → String
  | .low => "Low"
  | .medium => "Medium"
  | .high => "High"

/-- A pandas cell: numeric, string, or missing (NaN). -/
inductive Val where
  | num (q : ℚ)
  | str (s : String)
  | null
deriving DecidableEq, Repr

/-- One row of the loaded dataset, restricted to the columns the churn
pipeline touches.  `none` models a NaN cell. -/
structure Record where
  age : Option ℚ
  gender : Option String
  location : Option String
  gameGenre : Option String
  playTimeHours : Option ℚ
  inGamePurchases : Option ℚ
  gameDifficulty : Option String
  sessionsPerWeek : Option ℚ
  avgSessionDurationMinutes : Option ℚ
  playerLevel : Option ℚ
  achievementsUnlocked : Option ℚ
  engagementLevel : Option EngLevel
deriving DecidableEq, Repr

/-- Cell access of a `Record` by column name, for the eleven modeling
feature columns. -/
def Record.val (r : Record) (c : String) : Val :=
  let ofNum : Option ℚ → Val := fun o => match o with
    | some q => .num q
    | none => .null
  let ofStr : Option String → Val := fun o => match o with
    | some s => .str s
    | none => .null
  if c = "Age" then ofNum r.age
  else if c = "Gender" then ofStr r.gender
  else if c = "Location" then ofStr r.location
  else if c = "GameGenre" then ofStr r.gameGenre
  else if c = "PlayTimeHours" then ofNum r.playTimeHours
  else if c = "InGamePurchases" then ofNum r.inGamePurchases
  else if c = "GameDifficulty" then ofStr r.gameDifficulty
  else if c = "SessionsPerWeek" then ofNum r.sessionsPerWeek
  else if c = "AvgSessionDurationMinutes" then ofNum r.avgSessionDurationMinutes
  else if c = "PlayerLevel" then ofNum r.playerLevel
  else if c = "AchievementsUnlocked" then ofNum r.achievementsUnlocked
  else .null

/-- The modeling feature list `features` of tab5 (line 375). -/
def features : List String :=
  ["Age", "Gender", "Location", "GameGenre", "PlayTimeHours",
   "InGamePurchases", "GameDifficulty", "SessionsPerWeek",
   "AvgSessionDurationMinutes", "PlayerLevel", "AchievementsUnlocked"]

/-- The label column name, `target` of line 380. -/
def target : String := "Churn"

/-- The numeric partition `numeric_features` (line 402). -/
def numeric_features : List String :=
  ["Age", "PlayTimeHours", "SessionsPerWeek", "AvgSessionDurationMinutes",
   "PlayerLevel", "AchievementsUnlocked"]

/-- The categorical partition `categorical_features` (line 403). -/
def categorical_features : List String :=
  ["Gender", "Location", "GameGenre", "GameDifficulty"]

/-- Line 373: `lambda x: 1 if x == Low else 0` applied to the
`EngagementLevel` column.  A NaN cell compares unequal to the string
`Low`, so it is labeled 0 as well. -/
def churnOf (e : Option EngLevel) : ℕ :=
  match e with
  | some l => if engString l = "Low" then 1 else 0
  | none => 0

/-- A record together with its derived `Churn` column
(the `Churn` column assignment on `filtered_df`, line 373). -/
structure LabeledRecord extends Record where
  churn : ℕ
deriving DecidableEq, Repr

/-- The label derivation of line 373: adds the `Churn` column computed
from `EngagementLevel`, leaving every other column of the row unchanged. -/
def labelRecord (r : Record) : LabeledRecord :=
  { r with churn := churnOf r.engagementLevel }

/-- Cell access on the labeled frame `df_model` (columns
`features + [target]`). The derived `Churn` column is an integer column
and is never NaN. -/
def LabeledRecord.dfVal (r : LabeledRecord) (c : String) : Val :=
  if c = target then .num r.churn else r.toRecord.val c

/-! ### Data cleaning (lines 384-398) -/

/-- The columns of `df_model = filtered_df[features + [target]]`
(line 384). -/
def dfModelCols : List String := features ++ [target]

/-- Whether the cell of `df_model` at column `c` is NaN (`isnull`). -/
def isNullAt (r : LabeledRecord) (c : String) : Bool :=
  r.dfVal c == Val.null

/-- A row survives `df_model.dropna()` iff none of its `df_model` cells is
NaN (all-or-nothing row removal, line 390). -/
def rowComplete (r : LabeledRecord) : Bool :=
  dfModelCols.all fun c => !(isNullAt r c)

/-- The cleaning step `df_model.dropna()` of line 390. -/
def dropnaRows (rows : List LabeledRecord) : List LabeledRecord :=
  rows.filter rowComplete

/-- The reported count `nan_count_before = df_model.isnull().sum().sum()`
of line 387:
pandas sums the NaN indicators per column, then sums the column totals —
that is, it counts NaN *cells*, not rows. -/
def nanCountBefore (rows : List LabeledRecord) : ℕ :=
  (dfModelCols.map fun c => rows.countP fun r => isNullAt r c).sum

/-- The number of rows that `dropna` removes. -/
def rowsRemoved (rows : List LabeledRecord) : ℕ :=
  rows.countP fun r => !(rowComplete r)

/-! ### One-hot encoding and the ColumnTransformer (lines 402-411) -/

/-- Byte-wise (code-point) comparison of strings, the order `np.unique`
sorts category values by. -/
def charListLe : List Char → List Char → Bool
  | [], _ => true
  | _ :: _, [] => false
  | a :: as, b :: bs =>
    if a.toNat < b.toNat then true
    else if b.toNat < a.toNat then false
    else charListLe as bs

/-- String comparison used for sorting category vocabularies. -/
def strLe (a b : String) : Bool := charListLe a.data b.data

/-- Insertion into a sorted list of strings. -/
def insertSorted (x : String) : List String → List String
  | [] => [x]
  | y :: ys => if strLe x y then x :: y :: ys else y :: insertSorted x ys

/-- Insertion sort of a list of strings. -/
def sortStrings (l : List String) : List String :=
  l.foldr insertSorted []

/-- The distinct values of a list in first-observed order. -/
def firstObserved (l : List String) : List String :=
  l.foldl (fun acc v => if acc.contains v then acc else acc ++ [v]) []

/-- The `np.unique` view of a string column: the distinct values, sorted.
This is
how `OneHotEncoder` builds the per-feature category vocabulary
(`categories_`) at fit time. -/
def uniqueSorted (l : List String) : List String :=
  sortStrings (firstObserved l)

/-- The string values of a categorical column of a batch of records
(non-string cells do not occur in categorical columns after cleaning). -/
def catColumn (rows : List Record) (c : String) : List String :=
  rows.filterMap fun r =>
    match r.val c with
    | .str s => some s
    | _ => none

/-- The fitted vocabulary of `OneHotEncoder` for feature `c`. -/
def fitVocab (rows : List Record) (c : String) : List String :=
  uniqueSorted (catColumn rows c)

/-- One indicator block of `OneHotEncoder.transform` with
`handle_unknown=ignore`: one column per fitted category, in vocabulary
order; a value not in the vocabulary (or a NaN) yields the all-zero block
instead of an error. -/
def oneHotRow (vocab : List String) (v : Val) : List ℚ :=
  vocab.map fun cat =>
    match v with
    | .str s => if s = cat then 1 else 0
    | _ => 0

/-- Output column names of the fitted encoder for feature `c`
(`get_feature_names_out` format `feature_category`). -/
def oneHotNamesFor (rows : List Record) (c : String) : List String :=
  (fitVocab rows c).map fun v => c ++ "_" ++ v

/-- The two transformers of the `ColumnTransformer` (lines 405-411). -/
inductive TransKind where
  | scaler
  | oneHot
deriving DecidableEq, Repr

/-- One `(name, transformer, columns)` entry of the `ColumnTransformer`. -/
structure CTSpec where
  name : String
  kind : TransKind
  cols : List String
deriving DecidableEq, Repr

/-- The `preprocessor` of lines 405-411: a `ColumnTransformer` with the
`num` entry (a `StandardScaler` over `numeric_features`), the `cat`
entry (a `OneHotEncoder` with `handle_unknown=ignore` over
`categorical_features`), and `remainder=passthrough`. -/
def preprocessorSpec : List CTSpec :=
  [⟨"num", .scaler, numeric_features⟩, ⟨"cat", .oneHot, categorical_features⟩]

/-- The output columns contributed by one transformer entry: a
`StandardScaler` keeps one column per input column, a `OneHotEncoder`
expands each input column into its fitted vocabulary. -/
def ctOutCols (rows : List Record) : CTSpec → List String
  | ⟨_, .scaler, cols⟩ => cols
  | ⟨_, .oneHot, cols⟩ => cols.flatMap fun c => oneHotNamesFor rows c

/-- The `remainder=passthrough` columns: input columns consumed by no
listed transformer pass through unchanged, after all transformer
outputs. -/
def ctRemainder (allCols : List String) (specs : List CTSpec) : List String :=
  allCols.filter fun c => !(specs.any fun s => s.cols.contains c)

/-- The column layout of the design matrix the fitted `ColumnTransformer`
produces on `X`: each transformer block in listed order, then the
passthrough remainder block. -/
def designCols (rows : List Record) : List String :=
  (preprocessorSpec.flatMap fun s => ctOutCols rows s) ++
    ctRemainder features preprocessorSpec

/-- The list `feature_names = numeric_features + cat_feature_names`
of line 475:
the name list the interpretation block aligns coefficients to.  Note it
has no entry for the passthrough remainder columns. -/
def feature_names (rows : List Record) : List String :=
  numeric_features ++ categorical_features.flatMap fun c => oneHotNamesFor rows c

/-- The length of `classifier.coef_[0]`: `LogisticRegression` learns one
weight per design-matrix column, and the design matrix is produced by the
fitted `ColumnTransformer`. -/
def coefLen (rows : List Record) : ℕ :=
  (designCols rows).length

/-- The check of line 477: `len(feature_names) == len(classifier.coef_[0])`;
the importance table is only built when it holds, otherwise the
mismatch `st.error` of line 503 is shown. -/
def importanceCheck (rows : List Record) : Bool :=
  (feature_names rows).length == coefLen rows

/-! ### Split validation, fit validation, and the tab5 control flow
(lines 369-507) -/

/-- An exact fraction `n / d` (the float `test_size=0.2` is exactly
`1 / 5`). -/
structure Frac where
  n : ℕ
  d : ℕ
deriving DecidableEq, Repr

/-- Ceiling of `f * m` for a nonnegative fraction, as computed by sklearn when it
turns a float `test_size` into a row count (`n_test = ceil(test_size *
n_samples)`). -/
def Frac.ceilMul (f : Frac) (m : ℕ) : ℕ := (m * f.n + f.d - 1) / f.d

/-- The split fraction `test_size=0.2` of line 419. -/
def testFrac : Frac := ⟨1, 5⟩

/-- The validation `train_test_split(..., stratify=y)` performs before
producing a partition (in `_validate_shuffle_split` and
`StratifiedShuffleSplit._iter_indices`): `n_test = ceil(frac * n)`,
`n_train = n - n_test`; it raises when the train side would be empty,
when the least populated class has fewer than 2 members, or when either
side is smaller than the number of classes.  A label vector with a single
class and at least two rows passes all three checks. -/
def stratSplitOk (frac : Frac) (y : List ℕ) : Except String Unit :=
  let n := y.length
  let nTest := frac.ceilMul n
  let nTrain := n - nTest
  let classes := y.dedup
  let counts := classes.map fun c => y.count c
  if nTrain = 0 then
    .error ("resulting train set will be empty")
  else if counts.any fun k => k < 2 then
    .error ("The least populated class in y has fewer than 2 members")
  else if nTrain < classes.length || nTest < classes.length then
    .error ("train or test size too small for the number of classes")
  else
    .ok ()

/-- The class-count validation of `LogisticRegression.fit`: it raises
when the training labels contain fewer than two distinct classes. -/
def logRegFitOk (yTrain : List ℕ) : Except String Unit :=
  if yTrain.dedup.length < 2 then
    .error ("This solver needs samples of at least 2 classes in the data")
  else
    .ok ()

/-- A function producing the `(train, test)` row partition once the
stratified-split validation has passed.  `train_test_split` with the
fixed `random_state=42` is one concrete such function; no property below
depends on which rows land on which side. -/
abbrev SplitFn := List LabeledRecord → List LabeledRecord × List LabeledRecord

/-- A concrete split function used to instantiate `SplitFn` in witnesses:
the last `ceil(n/5)` rows form the test side. -/
def simpleSplit : SplitFn := fun l =>
  let k := l.length - testFrac.ceilMul l.length
  (l.take k, l.drop k)

/-- How one run of the tab5 analysis ends. -/
inductive Outcome where
  /-- `st.warning` + `st.stop()` of lines 370-371: empty filtered table. -/
  | stoppedEmptyFiltered
  /-- `st.warning` + `st.stop()` of lines 394-395: cleaning removed
  every row. -/
  | stoppedEmptyAfterClean
  /-- the `train_test_split` call of line 419 raised; it sits *outside*
  the `try` of line 423, so nothing converts the exception. -/
  | uncaughtSplitError (msg : String)
  /-- an exception inside the `try` of lines 423-504, converted by the
  `except` of lines 506-507 into the `st.error` message. -/
  | caughtError (msg : String)
  /-- fit and evaluation succeeded but line 477 found
  `len(feature_names) != len(coef_)`, so line 503 shows the mismatch
  error instead of the importance table. -/
  | successMismatch
  /-- fit, evaluation and the importance table all produced. -/
  | successWithImportance
deriving DecidableEq, Repr

/-- The control flow of tab5 (lines 369-507): empty-input guard, label
derivation, cleaning, empty-after-cleaning guard, stratified split
(outside the `try`), then fit, evaluation and the coefficient/importance
block inside the `try`. -/
def tab5Run (split : SplitFn) (filtered : List Record) : Outcome :=
  if filtered.isEmpty then .stoppedEmptyFiltered
  else
    let labeled := filtered.map labelRecord
    let dfModel := dropnaRows labeled
    if dfModel.isEmpty then .stoppedEmptyAfterClean
    else
      let y := dfModel.map fun r => r.churn
      match stratSplitOk testFrac y with
      | .error m => .uncaughtSplitError m
      | .ok _ =>
        let tr := (split dfModel).1
        match logRegFitOk (tr.map fun r => r.churn) with
        | .error m => .caughtError m
        | .ok _ =>
          let trainRecs := tr.map fun r => r.toRecord
          if importanceCheck trainRecs then .successWithImportance
          else .successMismatch

/-- The design-matrix column order as the spec words it for claim C4:
numeric columns in schema order, then each categorical feature expanded
in *first-observed* category order — and nothing else.  Kept separate
from `designCols` (which follows the code) so the two can be compared. -/
def specClaimedCols (rows : List Record) : List String :=
  numeric_features ++ categorical_features.flatMap fun c =>
    (firstObserved (catColumn rows c)).map fun v => c ++ "_" ++ v

/-! ### Sample data used in witnesses and counterexamples -/

/-- A fully populated record with `EngagementLevel = Low`. -/
def lowRec : Record :=
  { age := some 25, gender := some "Male", location := some "USA",
    gameGenre := some "RPG", playTimeHours := some 12,
    inGamePurchases := some 1, gameDifficulty := some "Easy",
    sessionsPerWeek := some 4, avgSessionDurationMinutes := some 30,
    playerLevel := some 10, achievementsUnlocked := some 5,
    engagementLevel := some .low }

/-- A fully populated record with `EngagementLevel = Medium`, differing
from `lowRec` in every categorical value. -/
def medRec : Record :=
  { age := some 31, gender := some "Female", location := some "Asia",
    gameGenre := some "Action", playTimeHours := some 7,
    inGamePurchases := some 0, gameDifficulty := some "Hard",
    sessionsPerWeek := some 9, avgSessionDurationMinutes := some 55,
    playerLevel := some 22, achievementsUnlocked := some 13,
    engagementLevel := some .medium }

/-- A record whose `Age` cell is NaN (removed by `dropna`). -/
def nanRec : Record :=
  { lowRec with age := none }

/-- A record with NaN in both `Age` and `Gender` (one row, two missing
cells). -/
def twoNanRec : Record :=
  { lowRec with age := none, gender := none }

/-- A two-record training batch whose categorical values are observed in
non-alphabetical order (`Male` before `Female`, `USA` before `Asia`,
`RPG` before `Action`). -/
def sampleTrain : List Record := [lowRec, medRec]

/-- Whether a run ended with the importance table displayed. -/
def showsImportance : Outcome → Bool
  | .successWithImportance => true
  | _ => false

/-! ### Interpretation layer (claim C2)

The feature-importance block of `src/streamlit_app.py` (lines 461-501)
only ranks and plots the raw coefficients; the odds-ratio reporting the
spec describes (section 4.6) belongs to a richer dashboard variant of
this repository that is not under `src/`, so it is modelled from the
spec below. -/

/-- Risk/protective factor classification. -/
inductive FactorClass where
  | protective
  | risk
deriving DecidableEq, Repr

/-- Direction label of the relative odds change. -/
inductive OddsDirection where
  | decrease
  | increase
deriving DecidableEq, Repr

/-- One row of the coefficient table. -/
structure CoefRow where
  featureName : String
  coefficient : ℝ
  odds : ℝ
  factorKind : FactorClass
  pctChange : ℝ
  oddsDir : OddsDirection

/-- Modelled from the spec: the interpretation layer missing from
`src/streamlit_app.py`.  "For each coefficient `B` at index i with name
`F_i`: odds ratio `R_i = exp(B_i)`; classification: `R_i < 1.0` →
protective/retention factor, `R_i >= 1.0` → risk factor; relative odds
change percentage = `|R_i - 1| * 100`, directionally labeled
decrease/increase." -/
noncomputable def interpretCoef (name : String) (B : ℝ) : CoefRow :=
  let R := Real.exp B
  { featureName := name
    coefficient := B
    odds := R
    factorKind := if R < 1 then .protective else .risk
    pctChange := |R - 1| * 100
    oddsDir := if R < 1 then .decrease else .increase }

/-! ### The pure fit pipeline (claim C9)

The fitted preprocessing parameters and the end-to-end run as a pure
function of the records, the split seed and the split fraction.  The
shuffled partition of `train_test_split` and the liblinear optimizer are
deterministic functions once `random_state=42` is fixed (lines 415 and
419); they enter the embedding as function parameters, since no property
below depends on which partition or which optimum they return. -/

/-- Learned parameters of `StandardScaler` for one numeric column:
fit-time mean, and scale = standard deviation with the zero-variance
guard (a zero standard deviation is replaced by 1). -/
noncomputable def scalerMean (vals : List ℚ) : ℝ :=
  (vals.map fun q => (q : ℝ)).sum / vals.length

/-- Population variance of a numeric column. -/
noncomputable def scalerVar (vals : List ℚ) : ℝ :=
  ((vals.map fun q => ((q : ℝ) - scalerMean vals) ^ 2).sum) / vals.length

/-- The `StandardScaler` scale with the zero-variance guard of sklearn. -/
noncomputable def scalerScale (vals : List ℚ) : ℝ :=
  if scalerVar vals = 0 then 1 else Real.sqrt (scalerVar vals)

/-- The numeric values of column `c` in a batch of records. -/
def numColumn (rows : List Record) (c : String) : List ℚ :=
  rows.filterMap fun r =>
    match r.val c with
    | .num q => some q
    | _ => none

/-- The learned state of the fitted `ColumnTransformer`: one (mean,
scale) pair per numeric feature and one category vocabulary per
categorical feature. -/
structure FittedPreprocessor where
  means : List (String × ℝ)
  scales : List (String × ℝ)
  vocabs : List (String × List String)

/-- Fitting the preprocessor on the training partition only. -/
noncomputable def fitPreprocessor (rows : List Record) : FittedPreprocessor :=
  { means := numeric_features.map fun c => (c, scalerMean (numColumn rows c))
    scales := numeric_features.map fun c => (c, scalerScale (numColumn rows c))
    vocabs := categorical_features.map fun c => (c, fitVocab rows c) }

/-- The numeric cell of a record as a real, NaN read as 0 (never hit
after cleaning). -/
def numCellOf (r : Record) (c : String) : ℚ :=
  match r.val c with
  | .num q => q
  | _ => 0

/-- Applying the fitted transform to one record: scaled numeric block,
one-hot blocks, passthrough block — without refitting. -/
noncomputable def transformRecord (fp : FittedPreprocessor) (r : Record) : List ℝ :=
  (numeric_features.map fun c =>
    ((numCellOf r c : ℝ) - ((fp.means.lookup c).getD 0)) /
      ((fp.scales.lookup c).getD 1)) ++
  (categorical_features.flatMap fun c =>
    (oneHotRow ((fp.vocabs.lookup c).getD []) (r.val c)).map fun q => (q : ℝ)) ++
  (ctRemainder features preprocessorSpec).map fun c => (numCellOf r c : ℝ)

/-- A deterministic partition function standing for the shuffled
stratified partition of `train_test_split` with its seed. -/
abbrev RowSplitFn := ℕ → Frac → List LabeledRecord → List LabeledRecord × List LabeledRecord

/-- A deterministic optimizer standing for liblinear with its fixed
`random_state`: design matrix and labels to (weights, bias). -/
abbrev Solver := List (List ℝ) → List ℕ → List ℝ × ℝ

/-- Dot product of weight and feature vectors. -/
noncomputable def dotProd (w x : List ℝ) : ℝ :=
  ((w.zip x).map fun p => p.1 * p.2).sum

/-- The structured result of one successful pipeline run. -/
structure PipelineResult where
  params : FittedPreprocessor
  coefs : List ℝ
  bias : ℝ
  accuracy : ℝ
  coefTable : List (String × ℝ)

/-- The churn pipeline as a pure function of (records, split seed, split
fraction) with the partition function and the optimizer as deterministic
parameters: label, clean, validate the stratified split, partition, fit
the preprocessor on the training side only, transform both sides, fit,
and evaluate accuracy on the held-out side.  `none` models the aborted
cycles (empty input, nothing trainable, split or fit error). -/
noncomputable def runPipeline (split : RowSplitFn) (solver : Solver)
    (recs : List Record) (seed : ℕ) (frac : Frac) : Option PipelineResult :=
  if recs.isEmpty then none
  else
    let dfModel := dropnaRows (recs.map labelRecord)
    if dfModel.isEmpty then none
    else
      match stratSplitOk frac (dfModel.map fun r => r.churn) with
      | .error _ => none
      | .ok _ =>
        let parts := split seed frac dfModel
        let yTr := parts.1.map fun r => r.churn
        match logRegFitOk yTr with
        | .error _ => none
        | .ok _ =>
          let trainRecs := parts.1.map fun r => r.toRecord
          let fp := fitPreprocessor trainRecs
          let wb := solver (trainRecs.map fun r => transformRecord fp r) yTr
          let teRecs := parts.2.map fun r => r.toRecord
          let preds := teRecs.map fun r =>
            if 0 < dotProd wb.1 (transformRecord fp r) + wb.2 then 1 else 0
          let yTe := parts.2.map fun r => r.churn
          let hits := (preds.zip yTe).countP fun p => p.1 == p.2
          some
            { params := fp
              coefs := wb.1
              bias := wb.2
              accuracy := (hits : ℝ) / yTe.length
              coefTable := (feature_names trainRecs).zip wb.1 }

/-- A concrete `RowSplitFn` for witnesses: last `ceil(frac * n)` rows are
the test side. -/
def takeDropSplit : RowSplitFn := fun _ frac l =>
  let k := l.length - frac.ceilMul l.length
  (l.take k, l.drop k)

/-- A concrete `Solver` for witnesses. -/
noncomputable def zeroSolver : Solver := fun _ _ => ([], 0)

/-! ### The shared cached base table (claim C10)

`load_data` caches the loaded dataframe (`@st.cache_data`, lines 41-42);
every later invocation receives the same shared table.  The script
filters it through `df[...].copy()` (lines 95-100) and then assigns the
derived `Churn` column (line 373) and cleans (lines 384-390) on the
copies.  Aliasing is made explicit with a heap of tables so that "adds
the column only to a copy" is a provable frame property: each dataframe
the script holds is a cell of the heap, `.copy()` allocates a fresh
cell, and in-place pandas operations write one cell. -/

/-- A stored dataframe row: the loaded columns plus the `Churn` column
once it has been assigned (`none` while the column does not exist). -/
abbrev PRow := Record × Option ℕ

/-- One dataframe held by the process. -/
abbrev PTable := List PRow

/-- The heap of live dataframes; a dataframe reference is an index. -/
abbrev Heap := List PTable

/-- Dereference a dataframe. -/
def readTable (h : Heap) (t : ℕ) : PTable :=
  h.getD t []

/-- The sidebar filter mask of lines 95-100 (a NaN cell is selected by
no filter: `isin` is false on NaN and NaN fails both age comparisons). -/
def filterMask (genders genres : List String) (lo hi : ℚ) (r : Record) : Bool :=
  (match r.gender with
    | some g => genders.contains g
    | none => false) &&
  (match r.gameGenre with
    | some g => genres.contains g
    | none => false) &&
  (match r.age with
    | some a => decide (lo ≤ a) && decide (a ≤ hi)
    | none => false)

/-- Completeness of a stored row, as `dropna` sees `df_model`. -/
def pRowComplete (rc : PRow) : Bool :=
  (features.all fun c => !(rc.1.val c == Val.null)) && rc.2.isSome

/-- The dataframe steps of one analysis invocation, with explicit
aliasing: cell 0 is the shared cached base table, `filtered_df =
df[...].copy()` allocates cell 1, line 373 assigns the `Churn` column in
place on cell 1, `df_model = filtered_df[...].copy()` allocates cell 2,
and `dropna(inplace=True)` rewrites cell 2. -/
def dashboardRun (base : PTable) (genders genres : List String)
    (lo hi : ℚ) : Heap :=
  let h0 : Heap := [base]
  let filtered := base.filter fun rc => filterMask genders genres lo hi rc.1
  let h1 := h0 ++ [filtered]
  let withChurn := (readTable h1 1).map fun rc =>
    (rc.1, some (churnOf rc.1.engagementLevel))
  let h2 := h1.set 1 withChurn
  let dfModel := readTable h2 1
  let h3 := h2 ++ [dfModel]
  let cleaned := (readTable h3 2).filter pRowComplete
  h3.set 2 cleaned

/-- Claim C3: `Churn` is 1 exactly on `EngagementLevel = Low`, 0 on
Medium, High and missing values; it is a pure function of
`EngagementLevel` alone, and labeling leaves every other column of the
record unchanged (no mutation of the source attributes). -/
theorem churn_label_iff_low (r : Record) :
    ((labelRecord r).churn = 1 ↔ r.engagementLevel = some EngLevel.low) ∧
    ((labelRecord r).churn = 0 ↔
      (r.engagementLevel = some EngLevel.medium ∨
       r.engagementLevel = some EngLevel.high ∨
       r.engagementLevel = none)) ∧
    (labelRecord r).churn = churnOf r.engagementLevel ∧
    (labelRecord r).toRecord = r := by
  refine ⟨?_, ?_, rfl, rfl⟩ <;>
  · rcases h : r.engagementLevel with _ | l
    · simp [labelRecord, churnOf, h]
    · cases l <;> simp [labelRecord, churnOf, engString, h]

/-! ### Helper lemmas -/

/-- The passthrough remainder of the tab5 preprocessor is exactly the one
feature listed in `features` but in neither partition list. -/
theorem ctRemainder_eq :
    ctRemainder features preprocessorSpec = ["InGamePurchases"] := by
  decide

/-- The design matrix has the `feature_names` columns followed by the
passthrough `InGamePurchases` column. -/
theorem designCols_eq (rows : List Record) :
    designCols rows = feature_names rows ++ ["InGamePurchases"] := by
  unfold designCols
  rw [ctRemainder_eq]
  simp [preprocessorSpec, ctOutCols, feature_names]

/-- The coefficient vector is always exactly one entry longer than the
name list the interpretation block pairs it with. -/
theorem coefLen_eq (rows : List Record) :
    coefLen rows = (feature_names rows).length + 1 := by
  simp [coefLen, designCols_eq]

/-- The length check of line 477 therefore never passes. -/
theorem importanceCheck_false (rows : List Record) :
    importanceCheck rows = false := by
  simp [importanceCheck, coefLen_eq]

/-- A list whose members are all equal has at most one distinct value. -/
theorem dedup_length_le_one {l : List ℕ} {c : ℕ} (h : ∀ x ∈ l, x = c) :
    l.dedup.length ≤ 1 := by
  have hsub : l.toFinset ⊆ {c} := by
    intro x hx
    simp [h x (List.mem_toFinset.mp hx)]
  calc l.dedup.length = l.toFinset.card := (List.card_toFinset l).symm
    _ ≤ ({c} : Finset ℕ).card := Finset.card_le_card hsub
    _ = 1 := Finset.card_singleton c

/-- Counting via `countP` equals summing indicators. -/
theorem countP_as_sum {α : Type} (l : List α) (p : α → Bool) :
    l.countP p = (l.map fun x => if p x then 1 else 0).sum := by
  induction l with
  | nil => rfl
  | cons a as ih => simp [List.countP_cons, ih]; omega

/-- Sums of pointwise sums split. -/
theorem sum_map_add {α : Type} (l : List α) (f g : α → ℕ) :
    (l.map fun x => f x + g x).sum = (l.map f).sum + (l.map g).sum := by
  induction l with
  | nil => rfl
  | cons a as ih => simp [ih]; omega

/-- Double counting: summing NaN indicators per column and then over
columns equals summing them per row and then over rows. -/
theorem nan_count_exchange (rows : List LabeledRecord) :
    nanCountBefore rows =
      (rows.map fun r => dfModelCols.countP fun c => isNullAt r c).sum := by
  unfold nanCountBefore
  induction rows with
  | nil => simp
  | cons r rs ih =>
    simp only [List.countP_cons, List.map_cons, List.sum_cons]
    rw [sum_map_add, ih, countP_as_sum dfModelCols fun c => isNullAt r c]
    omega

/-- Unseen values hit no indicator column of a vocabulary. -/
theorem oneHotRow_unseen (vocab : List String) (s : String) (h : s ∉ vocab) :
    oneHotRow vocab (.str s) = List.replicate vocab.length 0 := by
  induction vocab with
  | nil => rfl
  | cons v vs ih =>
    rw [List.mem_cons, not_or] at h
    simp only [oneHotRow, List.map_cons, List.length_cons, List.replicate_succ] at ih ⊢
    rw [if_neg h.1, ih h.2]

/-- Claim C1 (the code violates it): the numeric and categorical feature
lists do *not* partition `features` — `InGamePurchases` is in neither,
`remainder=passthrough` silently carries it into the design matrix, so
the coefficient vector of every successful fit is one entry longer than
the expanded feature-name list, and the importance table is never shown:
every run of tab5 ends without it, whatever the data. -/
theorem coef_count_always_mismatched (split : SplitFn)
    (rows filtered : List Record) :
    coefLen rows = (feature_names rows).length + 1 ∧
    ctRemainder features preprocessorSpec = ["InGamePurchases"] ∧
    showsImportance (tab5Run split filtered) = false := by
  refine ⟨coefLen_eq rows, ctRemainder_eq, ?_⟩
  simp only [tab5Run]
  split
  · rfl
  · split
    · rfl
    · split
      · rfl
      · split
        · rfl
        · rw [importanceCheck_false]
          rfl

/-- Claim C4, counterexample: on a training batch whose categories are
first observed in non-alphabetical order, the design-matrix
column order differs from the order the spec claims (first-observed
categories, no passthrough column). -/
theorem designCols_order_counterexample :
    designCols sampleTrain ≠ specClaimedCols sampleTrain := by
  decide

/-- Claim C4 as amended: the design-matrix columns are the numeric
features in schema order, then one one-hot block per categorical feature
in schema feature order with the categories in *sorted* (code-point)
order, then the passthrough remainder column `InGamePurchases`. -/
theorem designCols_order (rows : List Record) :
    designCols rows =
      numeric_features ++
        (categorical_features.flatMap fun c =>
          (uniqueSorted (catColumn rows c)).map fun v => c ++ "_" ++ v) ++
        ["InGamePurchases"] := by
  rw [designCols_eq]
  simp [feature_names, oneHotNamesFor, fitVocab]

/-- Claim C5: a category value unseen at fit time produces the all-zero
indicator block for that feature — the block keeps its fitted width and
every entry is zero; the transform is total (`handle_unknown=ignore`),
so no error is possible. -/
theorem unseen_category_zero_block (rows : List Record) (c s : String)
    (h : s ∉ fitVocab rows c) :
    oneHotRow (fitVocab rows c) (.str s) =
      List.replicate (fitVocab rows c).length 0 ∧
    (oneHotRow (fitVocab rows c) (.str s)).length =
      (fitVocab rows c).length := by
  refine ⟨oneHotRow_unseen _ s h, ?_⟩
  simp [oneHotRow]

/-- Witness for C5 at a concrete fit: the vocabulary fitted on
`sampleTrain` for `Gender` does not contain `Other`, and the transformed
block is all zeros. -/
theorem unseen_category_zero_block_witness :
    ("Other" ∉ fitVocab sampleTrain "Gender") ∧
    oneHotRow (fitVocab sampleTrain "Gender") (.str "Other") =
      List.replicate (fitVocab sampleTrain "Gender").length 0 :=
  ⟨by decide, (unseen_category_zero_block sampleTrain "Gender" "Other" (by decide)).1⟩

/-- Claim C8, counterexample: one row with two NaN cells — the reported
quantity (`df_model.isnull().sum().sum()`) is 2, yet only 1 row is
removed, so the code does not report the count of rows removed. -/
theorem nan_count_counterexample :
    nanCountBefore [labelRecord twoNanRec] = 2 ∧
    rowsRemoved [labelRecord twoNanRec] = 1 ∧
    nanCountBefore [labelRecord twoNanRec] ≠
      rowsRemoved [labelRecord twoNanRec] := by
  refine ⟨by decide, by decide, by decide⟩

/-- Claim C8 as amended: the cleaner reports the total number of missing
*cells* over the schema and label columns (the per-column NaN counts
summed and then totalled, which equals the per-row totals summed); the
number of rows removed is at most that count. -/
theorem nan_count_reports_cells (rows : List LabeledRecord) :
    nanCountBefore rows =
      (rows.map fun r => dfModelCols.countP fun c => isNullAt r c).sum ∧
    rowsRemoved rows ≤ nanCountBefore rows := by
  refine ⟨nan_count_exchange rows, ?_⟩
  rw [nan_count_exchange, rowsRemoved, countP_as_sum]
  apply List.sum_le_sum
  intro r _
  by_cases hc : rowComplete r
  · simp [hc]
  · have hex : ∃ c ∈ dfModelCols, isNullAt r c = true := by
      rw [rowComplete] at hc
      simpa using hc
    have hpos : 0 < dfModelCols.countP fun c => isNullAt r c :=
      List.countP_pos_iff.mpr hex
    simp only [Bool.not_eq_true] at hc
    simpa [hc] using hpos

/-- Claim C6, counterexample: a label vector of one single class (ten
rows all labeled 1) *passes* the stratified-split validation, and the
tab5 run proceeds to the model fit, which fails inside the `try` and is
converted to the caught error message — the split does not fail and the
fit is attempted, contrary to the claim. -/
theorem single_class_split_succeeds :
    stratSplitOk testFrac (List.replicate 10 1) = Except.ok () ∧
    tab5Run simpleSplit (List.replicate 10 lowRec) =
      Outcome.caughtError
        ("This solver needs samples of at least 2 classes in the data") := by
  exact ⟨rfl, by decide⟩

/-- Claim C6 as amended: with a single-class label vector of at least
two rows the stratified split validates and succeeds; the model fit is
then attempted, fails for lack of a second class, and that failure is
caught by the `try`/`except` around the fit and turned into the
user-facing error message.  A genuine split failure (here: a class with
a single member) is instead raised by the `train_test_split` call that
sits outside the `try`, so nothing converts it. -/
theorem single_class_reaches_fit (split : SplitFn)
    (h : ((split (List.replicate 10 (labelRecord lowRec))).1.all
      fun r => r.churn == 1) = true) :
    stratSplitOk testFrac (List.replicate 10 1) = Except.ok () ∧
    tab5Run split (List.replicate 10 lowRec) =
      Outcome.caughtError
        ("This solver needs samples of at least 2 classes in the data") ∧
    tab5Run split (List.replicate 3 lowRec ++ [medRec]) =
      Outcome.uncaughtSplitError
        ("The least populated class in y has fewer than 2 members") := by
  refine ⟨rfl, ?_, rfl⟩
  have hones : ∀ x ∈ (split (List.replicate 10 (labelRecord lowRec))).1.map
      (fun r => r.churn), x = 1 := by
    intro x hx
    rcases List.mem_map.mp hx with ⟨r, hr, hxe⟩
    have := List.all_eq_true.mp h r hr
    simp only [beq_iff_eq] at this
    omega
  have hfit : logRegFitOk ((split (List.replicate 10 (labelRecord lowRec))).1.map
      fun r => r.churn) = Except.error
        ("This solver needs samples of at least 2 classes in the data") := by
    rw [logRegFitOk, if_pos]
    exact lt_of_le_of_lt (dedup_length_le_one hones) (by norm_num)
  have key : tab5Run split (List.replicate 10 lowRec) =
      match logRegFitOk ((split (List.replicate 10 (labelRecord lowRec))).1.map
        fun r => r.churn) with
      | .error m => Outcome.caughtError m
      | .ok _ =>
        if importanceCheck ((split (List.replicate 10 (labelRecord lowRec))).1.map
            fun r => r.toRecord) then Outcome.successWithImportance
        else Outcome.successMismatch := rfl
  rw [key, hfit]

/-- Witness for the amended C6 at the concrete split function. -/
theorem single_class_reaches_fit_witness :
    ((simpleSplit (List.replicate 10 (labelRecord lowRec))).1.all
      fun r => r.churn == 1) = true ∧
    tab5Run simpleSplit (List.replicate 10 lowRec) =
      Outcome.caughtError
        ("This solver needs samples of at least 2 classes in the data") :=
  ⟨by decide, (single_class_reaches_fit simpleSplit (by decide)).2.1⟩

/-- Claim C7: an empty filtered table stops the analysis cycle with the
first warning before labeling, and a cleaning pass that removes every
row stops it with the second warning — in both cases the run ends in a
stopped state, before the split and the fit ever run. -/
theorem empty_input_guards (split : SplitFn) (filtered : List Record) :
    (filtered.isEmpty = true →
      tab5Run split filtered = Outcome.stoppedEmptyFiltered) ∧
    (filtered.isEmpty = false →
      (dropnaRows (filtered.map labelRecord)).isEmpty = true →
      tab5Run split filtered = Outcome.stoppedEmptyAfterClean) := by
  constructor
  · intro h
    unfold tab5Run
    rw [if_pos h]
  · intro hne hdf
    unfold tab5Run
    rw [if_neg (by rw [hne]; exact Bool.false_ne_true)]
    dsimp only
    rw [if_pos hdf]

/-- Witness for C7: the empty table, and a one-row table whose single
row has a NaN `Age` cell. -/
theorem empty_input_guards_witness :
    tab5Run simpleSplit [] = Outcome.stoppedEmptyFiltered ∧
    tab5Run simpleSplit [nanRec] = Outcome.stoppedEmptyAfterClean :=
  ⟨(empty_input_guards simpleSplit []).1 rfl,
    (empty_input_guards simpleSplit [nanRec]).2 rfl (by decide)⟩

/-- Claim C9: the pipeline is deterministic — two runs on the same
records, seed and split fraction return the same result, and the fitted
preprocessing parameters (means, scales, category vocabularies) agree.
The partition function and the optimizer enter as fixed deterministic
functions, which is what `random_state=42` makes them in the code. -/
theorem pipeline_deterministic (split : RowSplitFn) (solver : Solver)
    (r1 r2 : List Record) (s1 s2 : ℕ) (f1 f2 : Frac)
    (hr : r1 = r2) (hs : s1 = s2) (hf : f1 = f2) :
    runPipeline split solver r1 s1 f1 = runPipeline split solver r2 s2 f2 ∧
    fitPreprocessor r1 = fitPreprocessor r2 := by
  subst hr
  subst hs
  subst hf
  exact ⟨rfl, rfl⟩

/-- Witness for C9: two runs at a concrete input. -/
theorem pipeline_deterministic_witness :
    ([lowRec, medRec] : List Record) = [lowRec, medRec] ∧
    runPipeline takeDropSplit zeroSolver [lowRec, medRec] 42 testFrac =
      runPipeline takeDropSplit zeroSolver [lowRec, medRec] 42 testFrac ∧
    fitPreprocessor [lowRec, medRec] = fitPreprocessor [lowRec, medRec] :=
  ⟨rfl,
    (pipeline_deterministic takeDropSplit zeroSolver [lowRec, medRec]
      [lowRec, medRec] 42 42 testFrac testFrac rfl rfl rfl).1,
    (pipeline_deterministic takeDropSplit zeroSolver [lowRec, medRec]
      [lowRec, medRec] 42 42 testFrac testFrac rfl rfl rfl).2⟩

/-- Claim C10: one full analysis invocation — filtering into a copy,
assigning the derived `Churn` column, copying into `df_model` and the
in-place `dropna` — leaves the shared cached base table (heap cell 0)
exactly as it was. -/
theorem base_table_not_mutated (base : PTable) (genders genres : List String)
    (lo hi : ℚ) :
    readTable (dashboardRun base genders genres lo hi) 0 = base := rfl

/-- Claim C2 (modelled from the spec, the odds-ratio block being absent
from `src/streamlit_app.py`): each coefficient row carries the odds
ratio `exp B`, which is positive for every finite coefficient; the
classification is protective exactly when the ratio is below 1 and risk
exactly when it is at least 1; the percentage change is `|R - 1| * 100`
and the direction label is decrease exactly below 1, increase at or
above 1. -/
theorem interpretCoef_spec (name : String) (B : ℝ) :
    (interpretCoef name B).odds = Real.exp B ∧
    0 < (interpretCoef name B).odds ∧
    ((interpretCoef name B).factorKind = FactorClass.protective ↔
      (interpretCoef name B).odds < 1) ∧
    ((interpretCoef name B).factorKind = FactorClass.risk ↔
      1 ≤ (interpretCoef name B).odds) ∧
    (interpretCoef name B).pctChange = |(interpretCoef name B).odds - 1| * 100 ∧
    ((interpretCoef name B).oddsDir = OddsDirection.decrease ↔
      (interpretCoef name B).odds < 1) ∧
    ((interpretCoef name B).oddsDir = OddsDirection.increase ↔
      1 ≤ (interpretCoef name B).odds) := by
  unfold interpretCoef
  refine ⟨rfl, Real.exp_pos B, ?_, ?_, rfl, ?_, ?_⟩ <;>
  · dsimp only
    split_ifs with h
    · first
        | exact iff_of_true rfl h
        | exact iff_of_false (by simp) (not_le.mpr h)
    · first
        | exact iff_of_false (by simp) h
        | exact iff_of_true rfl (not_lt.mp h)
